import Mathlib

/-!
Shallow embedding of `src/auth-backend/main.py` (an OAuth2/OIDC
authentication gateway for GitHub and Google built on FastAPI).

Modelling conventions:
* JWT payloads are Python dicts with a fixed set of possible keys; we model
  them as a structure whose `Option` fields are `none` exactly when the key
  is absent from the dict.
* `jwt.encode(payload, JWT_SECRET, "HS256")` is modelled as a token value
  carrying its payload together with the signing key; `jwt.decode` checks
  that the key matches and that the token is not expired (python-jose raises
  `ExpiredSignatureError` iff `exp < now`).  Time is an explicit `Nat`
  parameter (seconds), replacing `datetime.utcnow()`.
* Outbound HTTP calls are replaced by an environment record holding the
  status codes and bodies the provider would have returned.
* A raised `HTTPException(status, detail)` is an `Except.error` carrying the
  status and detail; Python's `str()` of such an exception renders
  `"{status_code}: {detail}"` (Starlette's `HTTPException.__str__`).
* `str(user_data["id"])` stringifies the provider user id; ids are modelled
  already in string form (GitHub's numeric `42` is the string "42").
-/

deriving instance DecidableEq for Except

/-- Process-wide configuration read from the environment at startup
(`JWT_SECRET`, `GOOGLE_CLIENT_ID`; the GitHub credentials never influence
control flow in the model since provider responses are part of the
environment). -/
structure Config where
  jwtSecret : String
  googleClientId : String
  deriving Repr, DecidableEq

/-- A JWT payload dict as built by `create_tokens`, decoded by `jwt.decode`.
`Option` fields model possibly-absent dict keys (`none` = key absent). The
`type` field models the `"type"` key of the refresh payload. -/
structure JwtPayload where
  sub : String
  username : Option String
  name : Option String
  email : Option String
  avatar : Option String
  type : Option String
  exp : Nat
  deriving Repr, DecidableEq

/-- A token produced by `jwt.encode(payload, key, algorithm="HS256")`:
the payload together with the HMAC key it was signed with. -/
structure HSToken where
  payload : JwtPayload
  key : String
  deriving Repr, DecidableEq

/-- The dict `{"access_token": ..., "refresh_token": ...}` returned by
`create_tokens`. -/
structure TokenPair where
  access_token : HSToken
  refresh_token : HSToken
  deriving Repr, DecidableEq

/-- The `user_data` dict flowing into `create_tokens`: keys `id`, `login`
(always present where `create_tokens` is called) and possibly-absent
`name`, `email`, `avatar_url`. -/
structure UserData where
  id : String
  login : String
  name : Option String
  email : Option String
  avatar_url : Option String
  deriving Repr, DecidableEq

/-- Python `x or y` for `x = d.get(k)` (an optional string) and a string
default: `None` and `""` are falsy. -/
def pyOr : Option String → String → String
  | none, d => d
  | some s, d => if s = "" then d else s

/-- Python truthiness test `not x` for an optional string: `None` and the
empty string are falsy. -/
def pyFalsy : Option String → Bool
  | none => true
  | some s => s = ""

/-- `create_tokens(user_data)` from main.py lines 32-50: builds the access
payload `{sub, username, name, email, avatar, exp=now+1h}` and the refresh
payload `{sub, type="refresh", exp=now+7d}` and signs both with
`JWT_SECRET`. -/
def create_tokens (cfg : Config) (user_data : UserData) (now : Nat) : TokenPair :=
  let access_payload : JwtPayload :=
    { sub := user_data.id
      username := some user_data.login
      name := some (pyOr user_data.name user_data.login)
      email := user_data.email
      avatar := user_data.avatar_url
      type := none
      exp := now + 3600 }
  let refresh_payload : JwtPayload :=
    { sub := user_data.id
      username := none
      name := none
      email := none
      avatar := none
      type := some "refresh"
      exp := now + 604800 }
  { access_token := { payload := access_payload, key := cfg.jwtSecret }
    refresh_token := { payload := refresh_payload, key := cfg.jwtSecret } }

/-- `jwt.decode(token, secret, algorithms=["HS256"])` at time `now`:
fails (raises a `JWTError`, carried as the message string) when the
signature key does not match or the token is expired (`exp < now`),
otherwise returns the payload. -/
def jwtDecodeHS (secret : String) (tok : HSToken) (now : Nat) : Except String JwtPayload :=
  if tok.key ≠ secret then .error "Signature verification failed."
  else if tok.payload.exp < now then .error "Signature has expired."
  else .ok tok.payload

/-- An `HTTPException(status_code, detail)` response. -/
structure HTTPError where
  status : Nat
  detail : String
  deriving Repr, DecidableEq

/-- `get_current_user` (main.py lines 100-105): decodes the bearer token
with `JWT_SECRET`/HS256 and returns the payload; any `JWTError` becomes
`HTTPException(401, "Invalid token")`.  Note: no token-kind check. -/
def get_current_user (cfg : Config) (tok : HSToken) (now : Nat) :
    Except HTTPError JwtPayload :=
  match jwtDecodeHS cfg.jwtSecret tok now with
  | .ok payload => .ok payload
  | .error _ => .error { status := 401, detail := "Invalid token" }

/-- The `user` object returned by `GET /auth/me`. -/
structure MeUser where
  id : String
  username : String
  name : String
  email : Option String
  avatar : Option String
  deriving Repr, DecidableEq

/-- `GET /auth/me` (main.py lines 252-262): on a decoded payload, reads
`current_user["sub"]` and `current_user["username"]`.  When the payload has
no `"username"` key the subscript raises `KeyError`, which no handler
catches, so Starlette surfaces a generic 500 Internal Server Error. -/
def get_me (cfg : Config) (tok : HSToken) (now : Nat) : Except HTTPError MeUser :=
  match get_current_user cfg tok now with
  | .error e => .error e
  | .ok p =>
    match p.username with
    | none => .error { status := 500, detail := "Internal Server Error" }
    | some un =>
      .ok { id := p.sub, username := un, name := p.name.getD un
            email := p.email, avatar := p.avatar }

/-- `POST /auth/refresh` (main.py lines 162-178): decodes the refresh token
(any `JWTError` → 401 "Invalid refresh token"), rejects payloads whose
`"type"` key is not `"refresh"` with the same 401, then rebuilds a
`user_data` dict from the payload (`login`/`name` default to `""`,
`email`/`avatar_url` to absent) and calls `create_tokens`. -/
def refresh_token (cfg : Config) (tok : HSToken) (now : Nat) :
    Except HTTPError TokenPair :=
  match jwtDecodeHS cfg.jwtSecret tok now with
  | .error _ => .error { status := 401, detail := "Invalid refresh token" }
  | .ok payload =>
    if payload.type ≠ some "refresh" then
      .error { status := 401, detail := "Invalid refresh token" }
    else
      let user_data : UserData :=
        { id := payload.sub
          login := payload.username.getD ""
          name := some (payload.name.getD "")
          email := payload.email
          avatar_url := payload.avatar }
      .ok (create_tokens cfg user_data now)

/-- The `user` object embedded in the `/auth/github` and `/auth/google`
success responses. -/
structure RespUser where
  id : String
  username : String
  name : Option String
  email : Option String
  avatar : Option String
  deriving Repr, DecidableEq

/-- The full success response of the two auth endpoints:
`{"user": {...}, "access_token": ..., "refresh_token": ...}`. -/
structure AuthResponse where
  user : RespUser
  access_token : HSToken
  refresh_token : HSToken
  deriving Repr, DecidableEq

/-- One entry of the GitHub `/user/emails` response. -/
structure GitHubEmailEntry where
  email : String
  primary : Bool
  deriving Repr, DecidableEq

/-- Environment of one `/auth/github` request: the status codes and bodies
the three outbound GitHub calls would return (token exchange, `/user`,
`/user/emails`). -/
structure GitHubEnv where
  tokenStatus : Nat
  userStatus : Nat
  profile : UserData
  emailStatus : Nat
  emails : List GitHubEmailEntry
  deriving Repr, DecidableEq

/-- `POST /auth/github` (main.py lines 107-160): non-200 exchange → 400
"Failed to get access token"; non-200 user fetch → 400 "Failed to get user
info"; when the profile email is falsy (`None` or `""`) and the email-list
fetch returns 200, the first entry flagged `primary` is selected, and the
email is overwritten only when that entry's address is truthy
(`if primary_email:`); then `create_tokens` and the response dict. -/
def github_auth (cfg : Config) (env : GitHubEnv) (now : Nat) :
    Except HTTPError AuthResponse :=
  if env.tokenStatus ≠ 200 then
    .error { status := 400, detail := "Failed to get access token" }
  else if env.userStatus ≠ 200 then
    .error { status := 400, detail := "Failed to get user info" }
  else
    let user_data := env.profile
    let user_data :=
      if pyFalsy user_data.email then
        if env.emailStatus = 200 then
          match env.emails.find? (fun e => e.primary) with
          | some e =>
            if e.email = "" then user_data
            else { user_data with email := some e.email }
          | none => user_data
        else user_data
      else user_data
    let tokens := create_tokens cfg user_data now
    .ok { user := { id := user_data.id
                    username := user_data.login
                    name := some (pyOr user_data.name user_data.login)
                    email := user_data.email
                    avatar := user_data.avatar_url }
          access_token := tokens.access_token
          refresh_token := tokens.refresh_token }

/-- A Google ID token as seen by `jose.jwt.decode` with `jwks`,
`algorithms=["RS256"]`, `audience=GOOGLE_CLIENT_ID`,
`issuer="https://accounts.google.com"`, `access_token=...`:
its claims (`sub`, optional `email`/`name`/`picture`, `aud`, `iss`)
plus whether its RS256 signature verifies under Google's current JWKS
(`sigValid`) and whether jose's `at_hash` validation against the supplied
access token passes (`atHashOk`; jose skips the check when the claim is
absent, which counts as passing). -/
structure GoogleIdToken where
  sub : String
  email : Option String
  name : Option String
  picture : Option String
  aud : String
  iss : String
  sigValid : Bool
  atHashOk : Bool
  deriving Repr, DecidableEq

/-- Environment of one `/auth/google` request: the token-endpoint status,
the `id_token` and `access_token` fields of its body, and the status of the
JWKS fetch. -/
structure GoogleEnv where
  tokenStatus : Nat
  idToken : Option GoogleIdToken
  accessToken : Option String
  jwksStatus : Nat
  deriving Repr, DecidableEq

/-- `jose.jwt.decode(id_token, jwks, algorithms=["RS256"], audience,
issuer, access_token)`: fails with a `JWTError` (carried as its message)
on signature, audience, issuer or at-hash mismatch, else returns the
verified claims. -/
def jwtDecodeRS (cfg : Config) (tok : GoogleIdToken) : Except String GoogleIdToken :=
  if ¬ tok.sigValid then .error "Signature verification failed."
  else if tok.aud ≠ cfg.googleClientId then .error "Invalid audience"
  else if tok.iss ≠ "https://accounts.google.com" then .error "Invalid issuer"
  else if ¬ tok.atHashOk then .error "at_hash claim does not match access_token."
  else .ok tok

/-- `verify_google_id_token` (main.py lines 75-98): a non-200 JWKS fetch
raises `HTTPException(500, "Failed to get Google keys")` (not caught by its
own `except JWTError`); a `JWTError` from `jwt.decode` becomes
`HTTPException(400, "Invalid ID token: " + str(e))`. -/
def verify_google_id_token (cfg : Config) (env : GoogleEnv) (tok : GoogleIdToken) :
    Except HTTPError GoogleIdToken :=
  if env.jwksStatus ≠ 200 then
    .error { status := 500, detail := "Failed to get Google keys" }
  else
    match jwtDecodeRS cfg tok with
    | .error m => .error { status := 400, detail := "Invalid ID token: " ++ m }
    | .ok c => .ok c

/-- Python `str()` of an `HTTPException`: Starlette renders
`f"{status_code}: {detail}"`. -/
def strHTTP (e : HTTPError) : String :=
  toString e.status ++ ": " ++ e.detail

/-- `str.split("@")[0]`: the part of the string before the first `'@'`
(the whole string when there is none; `""` for the empty string). -/
def emailLocalPart (s : String) : String :=
  String.mk (s.data.takeWhile (fun c => c ≠ '@'))

/-- The body of the outer `try:` of `POST /auth/google` (main.py lines
183-245): non-200 exchange raises 400 "Failed to get access token";
a body without `id_token` raises 400 "No ID token received"; the inner
`try/except Exception` around `verify_google_id_token` re-raises any
exception `e` (including the `HTTPException`s that function raises) as
400 `"Failed to verify ID token: " + str(e)`; on success the verified
claims are reshaped (`login` = local part of the email, defaulting the
missing email to `""`) and passed to `create_tokens`. -/
def googleAuthInner (cfg : Config) (env : GoogleEnv) (now : Nat) :
    Except HTTPError AuthResponse :=
  if env.tokenStatus ≠ 200 then
    .error { status := 400, detail := "Failed to get access token" }
  else
    match env.idToken with
    | none => .error { status := 400, detail := "No ID token received" }
    | some tok =>
      match verify_google_id_token cfg env tok with
      | .error e =>
        .error { status := 400, detail := "Failed to verify ID token: " ++ strHTTP e }
      | .ok c =>
        let user_data : UserData :=
          { id := c.sub
            login := emailLocalPart (c.email.getD "")
            name := c.name
            email := c.email
            avatar_url := c.picture }
        let tokens := create_tokens cfg user_data now
        .ok { user := { id := user_data.id
                        username := user_data.login
                        name := user_data.name
                        email := user_data.email
                        avatar := user_data.avatar_url }
              access_token := tokens.access_token
              refresh_token := tokens.refresh_token }

/-- `POST /auth/google` (main.py lines 180-250): the whole handler body is
wrapped in `try ... except Exception as e`, which re-raises EVERY
exception — `HTTPException(400, ...)` included, since `HTTPException`
subclasses `Exception` — as `HTTPException(500, "Internal error: " +
str(e))`. -/
def google_auth (cfg : Config) (env : GoogleEnv) (now : Nat) :
    Except HTTPError AuthResponse :=
  match googleAuthInner cfg env now with
  | .ok r => .ok r
  | .error e => .error { status := 500, detail := "Internal error: " ++ strHTTP e }

/-! ### PKCE verification: `hashlib.sha256` + `base64.urlsafe_b64encode(...).rstrip("=")`

`verify_pkce` (main.py lines 64-73) hashes the UTF-8 encoding of the
verifier with SHA-256 and compares the unpadded URL-safe base64 encoding of
the digest to the challenge.  SHA-256 (FIPS 180-4) is implemented here over
`Nat` byte lists. -/

/-- UTF-8 encoding of one Unicode code point. -/
def utf8EncodeCharNat (c : Nat) : List Nat :=
  if c < 0x80 then [c]
  else if c < 0x800 then [0xc0 + c / 0x40, 0x80 + c % 0x40]
  else if c < 0x10000 then
    [0xe0 + c / 0x1000, 0x80 + c / 0x40 % 0x40, 0x80 + c % 0x40]
  else
    [0xf0 + c / 0x40000, 0x80 + c / 0x1000 % 0x40, 0x80 + c / 0x40 % 0x40,
     0x80 + c % 0x40]

/-- `s.encode()`: the UTF-8 bytes of a string. -/
def strBytes (s : String) : List Nat :=
  s.data.flatMap (fun c => utf8EncodeCharNat c.toNat)

def pow32 : Nat := 4294967296

def add32 (a b : Nat) : Nat := (a + b) % pow32

def rotr32 (n x : Nat) : Nat := ((x >>> n) ||| (x <<< (32 - n))) % pow32

def chNat (e f g : Nat) : Nat := (e &&& f) ^^^ ((e ^^^ 0xffffffff) &&& g)

def majNat (a b c : Nat) : Nat := (a &&& b) ^^^ (a &&& c) ^^^ (b &&& c)

def smallSigma0 (x : Nat) : Nat := rotr32 7 x ^^^ rotr32 18 x ^^^ (x >>> 3)

def smallSigma1 (x : Nat) : Nat := rotr32 17 x ^^^ rotr32 19 x ^^^ (x >>> 10)

def bigSigma0 (x : Nat) : Nat := rotr32 2 x ^^^ rotr32 13 x ^^^ rotr32 22 x

def bigSigma1 (x : Nat) : Nat := rotr32 6 x ^^^ rotr32 11 x ^^^ rotr32 25 x

/-- The 64 SHA-256 round constants (decimal, FIPS 180-4 §4.2.2). -/
def shaK : List Nat :=
  [1116352408, 1899447441, 3049323471, 3921009573, 961987163, 1508970993,
   2453635748, 2870763221, 3624381080, 310598401, 607225278, 1426881987,
   1925078388, 2162078206, 2614888103, 3248222580, 3835390401, 4022224774,
   264347078, 604807628, 770255983, 1249150122, 1555081692, 1996064986,
   2554220882, 2821834349, 2952996808, 3210313671, 3336571891, 3584528711,
   113926993, 338241895, 666307205, 773529912, 1294757372, 1396182291,
   1695183700, 1986661051, 2177026350, 2456956037, 2730485921, 2820302411,
   3259730800, 3345764771, 3516065817, 3600352804, 4094571909, 275423344,
   430227734, 506948616, 659060556, 883997877, 958139571, 1322822218,
   1537002063, 1747873779, 1955562222, 2024104815, 2227730452, 2361852424,
   2428436474, 2756734187, 3204031479, 3329325298]

/-- The eight SHA-256 working registers. -/
structure Sha256State where
  a : Nat
  b : Nat
  c : Nat
  d : Nat
  e : Nat
  f : Nat
  g : Nat
  h : Nat
  deriving Repr, DecidableEq

def sha256Init : Sha256State :=
  { a := 1779033703, b := 3144134277, c := 1013904242, d := 2773480762
    e := 1359893119, f := 2600822924, g := 528734635, h := 1541459225 }

/-- Big-endian byte serialization of `v` on `n` bytes. -/
def beBytes (n v : Nat) : List Nat :=
  (List.range n).map (fun i => v / 256 ^ (n - 1 - i) % 256)

/-- SHA-256 message padding: `0x80`, zeros to 56 mod 64, 64-bit big-endian
bit length. -/
def sha256Pad (msg : List Nat) : List Nat :=
  let L := msg.length
  msg ++ [0x80] ++ List.replicate ((119 - L % 64) % 64) 0 ++ beBytes 8 (8 * L)

/-- The sixteen 32-bit big-endian words of a 64-byte block. -/
def blockWords (block : List Nat) : List Nat :=
  (List.range 16).map (fun i =>
    block.getD (4 * i) 0 * 0x1000000 + block.getD (4 * i + 1) 0 * 0x10000 +
    block.getD (4 * i + 2) 0 * 0x100 + block.getD (4 * i + 3) 0)

/-- Extends the 16 block words to the 64-word message schedule. -/
def scheduleExtend (w16 : List Nat) : List Nat :=
  (List.range 48).foldl
    (fun w _ =>
      let t := w.length
      w ++ [add32 (add32 (smallSigma1 (w.getD (t - 2) 0)) (w.getD (t - 7) 0))
                  (add32 (smallSigma0 (w.getD (t - 15) 0)) (w.getD (t - 16) 0))])
    w16

/-- One SHA-256 compression round for constant/word pair `kw`. -/
def sha256Round (st : Sha256State) (kw : Nat × Nat) : Sha256State :=
  let t1 := add32 st.h (add32 (bigSigma1 st.e)
              (add32 (chNat st.e st.f st.g) (add32 kw.1 kw.2)))
  let t2 := add32 (bigSigma0 st.a) (majNat st.a st.b st.c)
  { a := add32 t1 t2, b := st.a, c := st.b, d := st.c
    e := add32 st.d t1, f := st.e, g := st.f, h := st.g }

/-- SHA-256 compression of one 64-byte block into the chaining state. -/
def sha256Compress (hs : Sha256State) (block : List Nat) : Sha256State :=
  let st := (shaK.zip (scheduleExtend (blockWords block))).foldl sha256Round hs
  { a := add32 hs.a st.a, b := add32 hs.b st.b, c := add32 hs.c st.c
    d := add32 hs.d st.d, e := add32 hs.e st.e, f := add32 hs.f st.f
    g := add32 hs.g st.g, h := add32 hs.h st.h }

/-- `hashlib.sha256(msg).digest()`: the 32 digest bytes. -/
def sha256Bytes (msg : List Nat) : List Nat :=
  let p := sha256Pad msg
  let blocks := (List.range (p.length / 64)).map (fun i => (p.drop (64 * i)).take 64)
  let fin := blocks.foldl sha256Compress sha256Init
  beBytes 4 fin.a ++ beBytes 4 fin.b ++ beBytes 4 fin.c ++ beBytes 4 fin.d ++
  beBytes 4 fin.e ++ beBytes 4 fin.f ++ beBytes 4 fin.g ++ beBytes 4 fin.h

/-- The URL-safe base64 alphabet (RFC 4648 §5). -/
def b64urlAlphabet : List Char :=
  "ABCDEFGHIJKLMNOPQRSTUVWXYZabcdefghijklmnopqrstuvwxyz0123456789-_".data

def b64Char (n : Nat) : Char := b64urlAlphabet.getD n 'A'

/-- Unpadded URL-safe base64 of a byte list (what
`base64.urlsafe_b64encode(d).decode().rstrip("=")` computes). -/
def b64urlChars : List Nat → List Char
  | [] => []
  | [b1] => [b64Char (b1 / 4), b64Char (b1 % 4 * 16)]
  | [b1, b2] =>
    [b64Char (b1 / 4), b64Char (b1 % 4 * 16 + b2 / 16), b64Char (b2 % 16 * 4)]
  | b1 :: b2 :: b3 :: rest =>
    b64Char (b1 / 4) :: b64Char (b1 % 4 * 16 + b2 / 16) ::
    b64Char (b2 % 16 * 4 + b3 / 64) :: b64Char (b3 % 64) :: b64urlChars rest

def b64urlNoPad (bs : List Nat) : String := String.mk (b64urlChars bs)

/-- The challenge `verify_pkce` regenerates from a verifier:
`base64.urlsafe_b64encode(hashlib.sha256(v.encode()).digest()).decode().rstrip("=")`. -/
def generatedChallenge (verifier : String) : String :=
  b64urlNoPad (sha256Bytes (strBytes verifier))

/-- `verify_pkce(code_verifier, code_challenge)` (main.py lines 64-73):
`if not code_verifier or not code_challenge: return True` (Python
truthiness: `None` and `""` both skip verification), else regenerate the
challenge from the verifier and compare for equality. -/
def verify_pkce (code_verifier code_challenge : Option String) : Bool :=
  if pyFalsy code_verifier || pyFalsy code_challenge then true
  else generatedChallenge (code_verifier.getD "") == code_challenge.getD ""

/-- The `user_data` dict that `POST /auth/refresh` reconstructs from a
refresh-token payload carrying only `sub`: `login` and `name` default to
`""`, `email` and `avatar_url` to absent. -/
def subjectOnlyUser (sub : String) : UserData :=
  { id := sub, login := "", name := some "", email := none, avatar_url := none }

/-! ### Concrete inputs used by witnesses and counterexamples -/

def cfgW : Config := { jwtSecret := "s3cret", googleClientId := "cid" }

def uW : UserData :=
  { id := "1", login := "alice", name := some "Alice"
    email := some "alice@example.com", avatar_url := some "https://a/p.png" }

/-! ### Theorems -/

/-- C6: every refresh token produced by `create_tokens` carries only the
subject, the `type="refresh"` marker and the 7-day expiry; its
username/name/email/avatar keys are absent, for every input identity. -/
theorem C6_refresh_token_carries_only_subject (cfg : Config) (u : UserData) (t : Nat) :
    ((create_tokens cfg u t).refresh_token.payload.sub = u.id) ∧
    ((create_tokens cfg u t).refresh_token.payload.type = some "refresh") ∧
    ((create_tokens cfg u t).refresh_token.payload.exp = t + 604800) ∧
    ((create_tokens cfg u t).refresh_token.payload.username = none) ∧
    ((create_tokens cfg u t).refresh_token.payload.name = none) ∧
    ((create_tokens cfg u t).refresh_token.payload.email = none) ∧
    ((create_tokens cfg u t).refresh_token.payload.avatar = none) :=
  ⟨rfl, rfl, rfl, rfl, rfl, rfl, rfl⟩

/-- C5: for every identity, verifying the issued access token (via
`get_current_user`, i.e. `jwt.decode` with `JWT_SECRET`) before it expires
returns exactly the claims `sub = id`, `username = login`, the identity's
email and avatar, with `exp` exactly 1 hour after issuance; and decoding
the refresh token from the same issuance succeeds with `type = "refresh"`
and `exp` exactly 7 days after issuance. -/
theorem C5_issue_then_verify_roundtrip (cfg : Config) (u : UserData)
    (t now now2 : Nat) (hacc : now ≤ t + 3600) (href : now2 ≤ t + 604800) :
    (get_current_user cfg (create_tokens cfg u t).access_token now =
      .ok { sub := u.id, username := some u.login
            name := some (pyOr u.name u.login), email := u.email
            avatar := u.avatar_url, type := none, exp := t + 3600 }) ∧
    (jwtDecodeHS cfg.jwtSecret (create_tokens cfg u t).refresh_token now2 =
      .ok { sub := u.id, username := none, name := none, email := none
            avatar := none, type := some "refresh", exp := t + 604800 }) := by
  have h1 : ¬ (t + 3600 < now) := by omega
  have h2 : ¬ (t + 604800 < now2) := by omega
  constructor
  · simp [get_current_user, jwtDecodeHS, create_tokens, h1]
  · simp [jwtDecodeHS, create_tokens, h2]

theorem C5_issue_then_verify_roundtrip_witness :
    (0 : Nat) ≤ 0 + 3600 ∧ (0 : Nat) ≤ 0 + 604800 ∧
    ((get_current_user cfgW (create_tokens cfgW uW 0).access_token 0 =
      .ok { sub := uW.id, username := some uW.login
            name := some (pyOr uW.name uW.login), email := uW.email
            avatar := uW.avatar_url, type := none, exp := 0 + 3600 }) ∧
     (jwtDecodeHS cfgW.jwtSecret (create_tokens cfgW uW 0).refresh_token 0 =
      .ok { sub := uW.id, username := none, name := none, email := none
            avatar := none, type := some "refresh", exp := 0 + 604800 })) :=
  ⟨by decide, by decide,
   C5_issue_then_verify_roundtrip cfgW uW 0 0 0 (by decide) (by decide)⟩

/-- C4: refreshing with the refresh token issued for any identity (before
it expires) succeeds and returns exactly the pair `create_tokens` builds
from the subject-only user data; in particular the new access token's
username and name are `""` and its email and avatar are absent, even though
the original identity had all four populated. -/
theorem C4_refresh_degrades_profile (cfg : Config) (u : UserData)
    (t now : Nat) (h : now ≤ t + 604800) :
    (refresh_token cfg (create_tokens cfg u t).refresh_token now =
      .ok (create_tokens cfg (subjectOnlyUser u.id) now)) ∧
    ((create_tokens cfg (subjectOnlyUser u.id) now).access_token.payload.sub = u.id) ∧
    ((create_tokens cfg (subjectOnlyUser u.id) now).access_token.payload.username = some "") ∧
    ((create_tokens cfg (subjectOnlyUser u.id) now).access_token.payload.name = some "") ∧
    ((create_tokens cfg (subjectOnlyUser u.id) now).access_token.payload.email = none) ∧
    ((create_tokens cfg (subjectOnlyUser u.id) now).access_token.payload.avatar = none) := by
  have h2 : ¬ (t + 604800 < now) := by omega
  refine ⟨?_, rfl, rfl, rfl, rfl, rfl⟩
  simp [refresh_token, jwtDecodeHS, create_tokens, subjectOnlyUser, pyOr, h2]

theorem C4_refresh_degrades_profile_witness :
    (0 : Nat) ≤ 0 + 604800 ∧
    ((refresh_token cfgW (create_tokens cfgW uW 0).refresh_token 0 =
      .ok (create_tokens cfgW (subjectOnlyUser uW.id) 0)) ∧
     ((create_tokens cfgW (subjectOnlyUser uW.id) 0).access_token.payload.sub = uW.id) ∧
     ((create_tokens cfgW (subjectOnlyUser uW.id) 0).access_token.payload.username = some "") ∧
     ((create_tokens cfgW (subjectOnlyUser uW.id) 0).access_token.payload.name = some "") ∧
     ((create_tokens cfgW (subjectOnlyUser uW.id) 0).access_token.payload.email = none) ∧
     ((create_tokens cfgW (subjectOnlyUser uW.id) 0).access_token.payload.avatar = none)) :=
  ⟨by decide, C4_refresh_degrades_profile cfgW uW 0 0 (by decide)⟩

/-- C10: a successful refresh at time `t2` re-issues via `create_tokens`
at `t2`, so the new refresh token expires at `t2 + 7d` (dated from the
refresh call, not from the original issuance at `t1`); refreshing that new
token again before its own expiry succeeds in turn, so the session extends
indefinitely, one 7-day token at a time. -/
theorem C10_refresh_expiry_is_per_token (cfg : Config) (u : UserData)
    (t1 t2 t3 : Nat) (h2 : t2 ≤ t1 + 604800) (h3 : t3 ≤ t2 + 604800) :
    (refresh_token cfg (create_tokens cfg u t1).refresh_token t2 =
      .ok (create_tokens cfg (subjectOnlyUser u.id) t2)) ∧
    ((create_tokens cfg (subjectOnlyUser u.id) t2).refresh_token.payload.exp = t2 + 604800) ∧
    (refresh_token cfg (create_tokens cfg (subjectOnlyUser u.id) t2).refresh_token t3 =
      .ok (create_tokens cfg (subjectOnlyUser u.id) t3)) ∧
    ((create_tokens cfg (subjectOnlyUser u.id) t3).refresh_token.payload.exp = t3 + 604800) := by
  have g2 : ¬ (t1 + 604800 < t2) := by omega
  have g3 : ¬ (t2 + 604800 < t3) := by omega
  refine ⟨?_, rfl, ?_, rfl⟩
  · simp [refresh_token, jwtDecodeHS, create_tokens, subjectOnlyUser, pyOr, g2]
  · simp [refresh_token, jwtDecodeHS, create_tokens, subjectOnlyUser, pyOr, g3]

theorem C10_refresh_expiry_is_per_token_witness :
    (604800 : Nat) ≤ 0 + 604800 ∧ (1209600 : Nat) ≤ 604800 + 604800 ∧
    ((refresh_token cfgW (create_tokens cfgW uW 0).refresh_token 604800 =
      .ok (create_tokens cfgW (subjectOnlyUser uW.id) 604800)) ∧
     ((create_tokens cfgW (subjectOnlyUser uW.id) 604800).refresh_token.payload.exp =
       604800 + 604800) ∧
     (refresh_token cfgW (create_tokens cfgW (subjectOnlyUser uW.id) 604800).refresh_token
        1209600 = .ok (create_tokens cfgW (subjectOnlyUser uW.id) 1209600)) ∧
     ((create_tokens cfgW (subjectOnlyUser uW.id) 1209600).refresh_token.payload.exp =
       1209600 + 604800)) :=
  ⟨by decide, by decide,
   C10_refresh_expiry_is_per_token cfgW uW 0 604800 1209600 (by decide) (by decide)⟩

/-- C2 counterexample: access-token verification applied to a refresh
token does NOT fail with 401: `get_current_user` decodes a valid refresh
token successfully (it never checks the token kind), and `GET /auth/me`
then dies on the missing `"username"` key with a `KeyError` that surfaces
as a 500, not as a 401 `InvalidToken`. -/
theorem C2_access_verifier_accepts_refresh_counterexample :
    (get_current_user cfgW (create_tokens cfgW uW 0).refresh_token 0 =
      .ok { sub := "1", username := none, name := none, email := none
            avatar := none, type := some "refresh", exp := 604800 }) ∧
    (get_me cfgW (create_tokens cfgW uW 0).refresh_token 0 =
      .error { status := 500, detail := "Internal Server Error" }) :=
  ⟨rfl, rfl⟩

/-- C2 amended: refresh-token verification (`POST /auth/refresh`) applied
to an access token fails with 401 "Invalid refresh token" because the
payload's `type` key is not `"refresh"`; but access-token verification
applied to a refresh token succeeds (`get_current_user` performs no
token-kind check and returns the refresh payload), and `GET /auth/me` then
fails with a `KeyError`-induced 500, not a 401. -/
theorem C2_cross_kind_verification (cfg : Config) (u : UserData)
    (t now : Nat) (hacc : now ≤ t + 3600) (href : now ≤ t + 604800) :
    (refresh_token cfg (create_tokens cfg u t).access_token now =
      .error { status := 401, detail := "Invalid refresh token" }) ∧
    (get_current_user cfg (create_tokens cfg u t).refresh_token now =
      .ok (create_tokens cfg u t).refresh_token.payload) ∧
    (get_me cfg (create_tokens cfg u t).refresh_token now =
      .error { status := 500, detail := "Internal Server Error" }) := by
  have h1 : ¬ (t + 3600 < now) := by omega
  have h2 : ¬ (t + 604800 < now) := by omega
  refine ⟨?_, ?_, ?_⟩
  · simp [refresh_token, jwtDecodeHS, create_tokens, h1]
  · simp [get_current_user, jwtDecodeHS, create_tokens, h2]
  · simp [get_me, get_current_user, jwtDecodeHS, create_tokens, h2]

theorem C2_cross_kind_verification_witness :
    (0 : Nat) ≤ 0 + 3600 ∧ (0 : Nat) ≤ 0 + 604800 ∧
    ((refresh_token cfgW (create_tokens cfgW uW 0).access_token 0 =
      .error { status := 401, detail := "Invalid refresh token" }) ∧
     (get_current_user cfgW (create_tokens cfgW uW 0).refresh_token 0 =
      .ok (create_tokens cfgW uW 0).refresh_token.payload) ∧
     (get_me cfgW (create_tokens cfgW uW 0).refresh_token 0 =
      .error { status := 500, detail := "Internal Server Error" })) :=
  ⟨by decide, by decide,
   C2_cross_kind_verification cfgW uW 0 0 (by decide) (by decide)⟩

/-- A well-formed, correctly signed Google ID token for `cfgW`. -/
def tokGoodW : GoogleIdToken :=
  { sub := "g-123", email := some "alice@example.com", name := some "Alice"
    picture := some "https://p/x.png", aud := "cid"
    iss := "https://accounts.google.com", sigValid := true, atHashOk := true }

/-- A Google environment in which the exchange fails (non-200 token
endpoint). -/
def envExchangeFailW : GoogleEnv :=
  { tokenStatus := 400, idToken := none, accessToken := none, jwksStatus := 200 }

/-- A Google environment whose ID token has the wrong audience. -/
def envBadAudW : GoogleEnv :=
  { tokenStatus := 200, idToken := some { tokGoodW with aud := "evil" }
    accessToken := some "gat", jwksStatus := 200 }

/-- A Google environment in which everything verifies. -/
def envGoodW : GoogleEnv :=
  { tokenStatus := 200, idToken := some tokGoodW
    accessToken := some "gat", jwksStatus := 200 }

/-- The response `POST /auth/google` produces in `envGoodW`. -/
def respGoodW : AuthResponse :=
  { user := { id := "g-123", username := "alice", name := some "Alice"
              email := some "alice@example.com"
              avatar := some "https://p/x.png" }
    access_token :=
      (create_tokens cfgW
        { id := "g-123", login := "alice", name := some "Alice"
          email := some "alice@example.com"
          avatar_url := some "https://p/x.png" } 0).access_token
    refresh_token :=
      (create_tokens cfgW
        { id := "g-123", login := "alice", name := some "Alice"
          email := some "alice@example.com"
          avatar_url := some "https://p/x.png" } 0).refresh_token }

/-- C1: the outer `except Exception` of `POST /auth/google` also catches
the handler's own `HTTPException(400, ...)` (an `Exception` subclass), so
an exchange failure and an ID-token verification failure are both reported
to the client as 500 "Internal error: ..." — with the internal exception
text embedded in the detail — contradicting the intended 400-with-no-leak
behaviour. -/
theorem C1_google_failures_surface_as_500 :
    (google_auth cfgW envExchangeFailW 0 =
      .error { status := 500
               detail := "Internal error: 400: Failed to get access token" }) ∧
    (google_auth cfgW envBadAudW 0 =
      .error { status := 500
               detail := "Internal error: 400: Failed to verify ID token: 400: Invalid ID token: Invalid audience" }) :=
  ⟨rfl, rfl⟩

/-- C3: Google authentication succeeds only when the exchange returned 200
with an ID token whose signature verifies, whose audience is the
configured client id and whose issuer is Google's canonical issuer (and
the JWKS fetch succeeded and the at-hash check passed); the response's
profile fields all come from the verified token's claims.  A 200 exchange
response with no ID token never succeeds, and a signature, audience or
issuer mismatch never succeeds. -/
theorem C3_google_success_requires_verified_id_token
    (cfg : Config) (env : GoogleEnv) (now : Nat) :
    (∀ r, google_auth cfg env now = .ok r →
      env.tokenStatus = 200 ∧ env.jwksStatus = 200 ∧
      ∃ tok, env.idToken = some tok ∧ tok.sigValid = true ∧
        tok.aud = cfg.googleClientId ∧
        tok.iss = "https://accounts.google.com" ∧ tok.atHashOk = true ∧
        r.user.id = tok.sub ∧
        r.user.username = emailLocalPart (tok.email.getD "") ∧
        r.user.name = tok.name ∧ r.user.email = tok.email ∧
        r.user.avatar = tok.picture) ∧
    (env.idToken = none → ∀ r, google_auth cfg env now ≠ .ok r) ∧
    (∀ tok, env.idToken = some tok →
      (tok.sigValid = false ∨ tok.aud ≠ cfg.googleClientId ∨
        tok.iss ≠ "https://accounts.google.com") →
      ∀ r, google_auth cfg env now ≠ .ok r) := by
  refine ⟨?_, ?_, ?_⟩
  · intro r h
    unfold google_auth googleAuthInner verify_google_id_token jwtDecodeRS at h
    by_cases h1 : env.tokenStatus = 200
    swap
    · simp [h1] at h
    cases hid : env.idToken with
    | none => simp [h1, hid] at h
    | some tok =>
      by_cases h2 : env.jwksStatus = 200
      swap
      · simp [h1, hid, h2] at h
      by_cases h3 : tok.sigValid = true
      swap
      · simp [h1, hid, h2, h3] at h
      by_cases h4 : tok.aud = cfg.googleClientId
      swap
      · simp [h1, hid, h2, h3, h4] at h
      by_cases h5 : tok.iss = "https://accounts.google.com"
      swap
      · simp [h1, hid, h2, h3, h4, h5] at h
      by_cases h6 : tok.atHashOk = true
      swap
      · simp [h1, hid, h2, h3, h4, h5, h6] at h
      refine ⟨h1, h2, tok, rfl, h3, h4, h5, h6, ?_⟩
      simp [h1, hid, h2, h3, h4, h5, h6] at h
      simp [← h]
  · intro hid r h
    unfold google_auth googleAuthInner at h
    by_cases h1 : env.tokenStatus = 200
    · simp [h1, hid] at h
    · simp [h1] at h
  · intro tok hid hbad r h
    unfold google_auth googleAuthInner verify_google_id_token jwtDecodeRS at h
    by_cases h1 : env.tokenStatus = 200
    swap
    · simp [h1] at h
    by_cases h2 : env.jwksStatus = 200
    swap
    · simp [h1, hid, h2] at h
    rcases hbad with hb | hb | hb
    · simp [h1, hid, h2, hb] at h
    · by_cases h3 : tok.sigValid = true
      · simp [h1, hid, h2, h3, hb] at h
      · simp [h1, hid, h2, h3] at h
    · by_cases h3 : tok.sigValid = true
      swap
      · simp [h1, hid, h2, h3] at h
      by_cases h4 : tok.aud = cfg.googleClientId
      · simp [h1, hid, h2, h3, h4, hb] at h
      · simp [h1, hid, h2, h3, h4] at h

theorem C3_google_success_requires_verified_id_token_witness :
    google_auth cfgW envGoodW 0 = .ok respGoodW ∧
    (envGoodW.tokenStatus = 200 ∧ envGoodW.jwksStatus = 200 ∧
      ∃ tok, envGoodW.idToken = some tok ∧ tok.sigValid = true ∧
        tok.aud = cfgW.googleClientId ∧
        tok.iss = "https://accounts.google.com" ∧ tok.atHashOk = true ∧
        respGoodW.user.id = tok.sub ∧
        respGoodW.user.username = emailLocalPart (tok.email.getD "") ∧
        respGoodW.user.name = tok.name ∧ respGoodW.user.email = tok.email ∧
        respGoodW.user.avatar = tok.picture) :=
  ⟨by decide,
   (C3_google_success_requires_verified_id_token cfgW envGoodW 0).1 respGoodW (by decide)⟩

/-- A verified Google ID token whose claims contain no email. -/
def tokNoEmailW : GoogleIdToken :=
  { sub := "g-9", email := none, name := some "Nia", picture := none
    aud := "cid", iss := "https://accounts.google.com"
    sigValid := true, atHashOk := true }

/-- A Google environment whose verified ID token has no email claim. -/
def envNoEmailW : GoogleEnv :=
  { tokenStatus := 200, idToken := some tokNoEmailW
    accessToken := some "gat", jwksStatus := 200 }

/-- C9 counterexample: with a verified ID token that has no email claim,
`/auth/google` does NOT fail with a runtime fault: in Python
`"".split("@")[0]` is `""`, so the handler succeeds and produces an
identity whose username is the empty string. -/
theorem C9_no_email_still_succeeds_counterexample :
    google_auth cfgW envNoEmailW 0 =
      .ok { user := { id := "g-9", username := "", name := some "Nia"
                      email := none, avatar := none }
            access_token :=
              (create_tokens cfgW
                { id := "g-9", login := "", name := some "Nia"
                  email := none, avatar_url := none } 0).access_token
            refresh_token :=
              (create_tokens cfgW
                { id := "g-9", login := "", name := some "Nia"
                  email := none, avatar_url := none } 0).refresh_token } := by
  decide

/-- C9 amended: when the verified Google ID-token claims contain no email,
username derivation yields the empty string (`"".split("@")[0] == ""` in
Python — no runtime fault) and authentication succeeds, producing a
canonical identity with an empty username. -/
theorem C9_no_email_yields_empty_username (cfg : Config) (env : GoogleEnv)
    (tok : GoogleIdToken) (now : Nat)
    (h1 : env.tokenStatus = 200) (h2 : env.idToken = some tok)
    (h3 : env.jwksStatus = 200) (h4 : tok.sigValid = true)
    (h5 : tok.aud = cfg.googleClientId)
    (h6 : tok.iss = "https://accounts.google.com") (h7 : tok.atHashOk = true)
    (h8 : tok.email = none) :
    google_auth cfg env now =
      .ok { user := { id := tok.sub, username := "", name := tok.name
                      email := none, avatar := tok.picture }
            access_token :=
              (create_tokens cfg
                { id := tok.sub, login := "", name := tok.name
                  email := none, avatar_url := tok.picture } now).access_token
            refresh_token :=
              (create_tokens cfg
                { id := tok.sub, login := "", name := tok.name
                  email := none, avatar_url := tok.picture } now).refresh_token } := by
  simp [google_auth, googleAuthInner, verify_google_id_token, jwtDecodeRS,
        emailLocalPart, h1, h2, h3, h4, h5, h6, h7, h8]

theorem C9_no_email_yields_empty_username_witness :
    envNoEmailW.tokenStatus = 200 ∧ envNoEmailW.idToken = some tokNoEmailW ∧
    envNoEmailW.jwksStatus = 200 ∧ tokNoEmailW.sigValid = true ∧
    tokNoEmailW.aud = cfgW.googleClientId ∧
    tokNoEmailW.iss = "https://accounts.google.com" ∧
    tokNoEmailW.atHashOk = true ∧ tokNoEmailW.email = none ∧
    google_auth cfgW envNoEmailW 0 =
      .ok { user := { id := tokNoEmailW.sub, username := ""
                      name := tokNoEmailW.name, email := none
                      avatar := tokNoEmailW.picture }
            access_token :=
              (create_tokens cfgW
                { id := tokNoEmailW.sub, login := "", name := tokNoEmailW.name
                  email := none, avatar_url := tokNoEmailW.picture } 0).access_token
            refresh_token :=
              (create_tokens cfgW
                { id := tokNoEmailW.sub, login := "", name := tokNoEmailW.name
                  email := none, avatar_url := tokNoEmailW.picture } 0).refresh_token } :=
  ⟨by decide, by decide, by decide, by decide, by decide, by decide, by decide, by decide,
   C9_no_email_yields_empty_username cfgW envNoEmailW tokNoEmailW 0
     (by decide) (by decide) (by decide) (by decide) (by decide) (by decide)
     (by decide) (by decide)⟩

/-- C8: with a successful exchange and profile fetch whose profile has no
email, `/auth/github` selects the first email-list entry flagged
`primary` when the email-list fetch returns 200 and such an entry exists
(and its address is non-empty), and otherwise — no primary entry, or a
failed email-list fetch — leaves the email absent; in every one of these
cases authentication still succeeds. -/
theorem C8_github_email_completion (cfg : Config) (env : GitHubEnv) (now : Nat)
    (htok : env.tokenStatus = 200) (huser : env.userStatus = 200)
    (hnoemail : env.profile.email = none) :
    (∀ e, env.emailStatus = 200 →
      env.emails.find? (fun x => x.primary) = some e → e.email ≠ "" →
      github_auth cfg env now =
        .ok { user := { id := env.profile.id, username := env.profile.login
                        name := some (pyOr env.profile.name env.profile.login)
                        email := some e.email, avatar := env.profile.avatar_url }
              access_token :=
                (create_tokens cfg { env.profile with email := some e.email } now).access_token
              refresh_token :=
                (create_tokens cfg { env.profile with email := some e.email } now).refresh_token }) ∧
    (env.emails.find? (fun x => x.primary) = none →
      github_auth cfg env now =
        .ok { user := { id := env.profile.id, username := env.profile.login
                        name := some (pyOr env.profile.name env.profile.login)
                        email := none, avatar := env.profile.avatar_url }
              access_token := (create_tokens cfg env.profile now).access_token
              refresh_token := (create_tokens cfg env.profile now).refresh_token }) ∧
    (env.emailStatus ≠ 200 →
      github_auth cfg env now =
        .ok { user := { id := env.profile.id, username := env.profile.login
                        name := some (pyOr env.profile.name env.profile.login)
                        email := none, avatar := env.profile.avatar_url }
              access_token := (create_tokens cfg env.profile now).access_token
              refresh_token := (create_tokens cfg env.profile now).refresh_token }) := by
  refine ⟨?_, ?_, ?_⟩
  · intro e hst hfind hne
    simp [github_auth, htok, huser, hnoemail, pyFalsy, hst, hfind, hne]
  · intro hfind
    by_cases hst : env.emailStatus = 200
    · simp [github_auth, htok, huser, hnoemail, pyFalsy, hst, hfind]
    · simp [github_auth, htok, huser, hnoemail, pyFalsy, hst]
  · intro hst
    simp [github_auth, htok, huser, hnoemail, pyFalsy, hst]

/-- The GitHub environment of the spec's end-to-end scenario: profile
`{id: 42, login: "octo", email: null}` and email list
`[{email: "octo@example.com", primary: true}]`. -/
def envOctoW : GitHubEnv :=
  { tokenStatus := 200, userStatus := 200
    profile := { id := "42", login := "octo", name := none
                 email := none, avatar_url := none }
    emailStatus := 200
    emails := [{ email := "octo@example.com", primary := true }] }

theorem C8_github_email_completion_witness :
    envOctoW.tokenStatus = 200 ∧ envOctoW.userStatus = 200 ∧
    envOctoW.profile.email = none ∧ envOctoW.emailStatus = 200 ∧
    envOctoW.emails.find? (fun x => x.primary) =
      some { email := "octo@example.com", primary := true } ∧
    ("octo@example.com" : String) ≠ "" ∧
    github_auth cfgW envOctoW 0 =
      .ok { user := { id := envOctoW.profile.id, username := envOctoW.profile.login
                      name := some (pyOr envOctoW.profile.name envOctoW.profile.login)
                      email := some "octo@example.com"
                      avatar := envOctoW.profile.avatar_url }
            access_token :=
              (create_tokens cfgW
                { envOctoW.profile with email := some "octo@example.com" } 0).access_token
            refresh_token :=
              (create_tokens cfgW
                { envOctoW.profile with email := some "octo@example.com" } 0).refresh_token } :=
  ⟨by decide, by decide, by decide, by decide, by decide, by decide,
   (C8_github_email_completion cfgW envOctoW 0 (by decide) (by decide) (by decide)).1
     { email := "octo@example.com", primary := true } (by decide) (by decide) (by decide)⟩

/-- A SHA-256 digest always has 32 bytes. -/
theorem sha256Bytes_length (m : List Nat) : (sha256Bytes m).length = 32 := by
  simp [sha256Bytes, beBytes]

/-- The unpadded base64 encoding of a nonempty byte list is nonempty. -/
theorem b64urlChars_ne_nil (bs : List Nat) (h : bs ≠ []) : b64urlChars bs ≠ [] := by
  match bs with
  | [] => exact absurd rfl h
  | [b1] => simp [b64urlChars]
  | [b1, b2] => simp [b64urlChars]
  | b1 :: b2 :: b3 :: rest => simp [b64urlChars]

/-- The challenge `verify_pkce` regenerates is never the empty string. -/
theorem generatedChallenge_ne_empty (v : String) : generatedChallenge v ≠ "" := by
  unfold generatedChallenge b64urlNoPad
  intro hcontra
  have hdata : b64urlChars (sha256Bytes (strBytes v)) = [] :=
    congrArg String.data hcontra
  have hne : sha256Bytes (strBytes v) ≠ [] := by
    intro hnil
    have hlen := sha256Bytes_length (strBytes v)
    rw [hnil] at hlen
    simp at hlen
  exact b64urlChars_ne_nil _ hne hdata

/-- C7 counterexample: the claim's mismatch clause fails on empty strings,
which Python truthiness treats like absent values: `verify_pkce("", "x")`
returns true although `"x"` differs from the challenge computed from the
verifier `""`, and `verify_pkce("a", "")` returns true although `""`
differs from the challenge computed from `"a"`. -/
theorem C7_empty_string_counterexample :
    (verify_pkce (some "") (some "x") = true ∧
      "x" ≠ generatedChallenge "") ∧
    (verify_pkce (some "a") (some "") = true ∧
      "" ≠ generatedChallenge "a") := by
  refine ⟨⟨rfl, by decide⟩, ⟨rfl, by decide⟩⟩

/-- C7 amended: `verify_pkce` returns true when either argument is absent
OR the empty string (Python `not x` truthiness); for every string `v` it
returns true on `(v, base64url_no_pad(sha256(v)))`; and for every
NON-EMPTY `v` and every non-empty challenge different from that computed
value it returns false (a mismatch is a `false` result, not an
exception). -/
theorem C7_verify_pkce_spec (v c : String) :
    (verify_pkce none (some c) = true ∧ verify_pkce (some v) none = true ∧
      verify_pkce none none = true ∧ verify_pkce (some "") (some c) = true ∧
      verify_pkce (some v) (some "") = true) ∧
    (verify_pkce (some v) (some (generatedChallenge v)) = true) ∧
    (v ≠ "" → c ≠ "" → c ≠ generatedChallenge v →
      verify_pkce (some v) (some c) = false) := by
  refine ⟨⟨?_, ?_, ?_, ?_, ?_⟩, ?_, ?_⟩
  · simp [verify_pkce, pyFalsy]
  · simp [verify_pkce, pyFalsy]
  · simp [verify_pkce, pyFalsy]
  · simp [verify_pkce, pyFalsy]
  · simp [verify_pkce, pyFalsy]
  · by_cases hv : v = ""
    · simp [verify_pkce, pyFalsy, hv]
    · simp [verify_pkce, pyFalsy, hv, generatedChallenge_ne_empty v]
  · intro hv hc hne
    simp [verify_pkce, pyFalsy, hv, hc]
    exact fun habs => absurd habs.symm hne

theorem C7_verify_pkce_spec_witness :
    ("a" : String) ≠ "" ∧ ("x" : String) ≠ "" ∧
    ("x" : String) ≠ generatedChallenge "a" ∧
    verify_pkce (some "a") (some "x") = false :=
  ⟨by decide, by decide, by decide,
   (C7_verify_pkce_spec "a" "x").2.2 (by decide) (by decide) (by decide)⟩







